import Mathlib

/-!
Verification development for the `dynamic_flag` / `an_hook` library
(single header `include/an_hook.h`, asm-goto implementation style 2).

The header compiles, for every `AN_HOOK_IMPL_(OPCODE, INITIAL, FLIPPED,
KIND, NAME, FILE, LINE, ...)` expansion:

  * a 5-byte instruction at the hook site whose first byte is OPCODE;
    when that byte is 0xe9 (`jmp rel32`) control jumps to the label in
    front of the guarded block, so the block executes; when it is 0xa9
    (`testl $..., %eax`) execution falls through into `if (0)` and the
    guarded block is skipped;
  * an `.asciz` string `KIND ":" NAME "@" FILE ":" LINE` in `.rodata`;
  * a metadata record in section `dynamic_flag_list` holding the site
    address, the target label, a pointer to that string, the INITIAL
    byte and the FLIPPED byte;
  * a pointer to that record in section `dynamic_flag_KIND_list`.

The runtime half of the library (`dynamic_flag_activate` and friends,
declared in the header but implemented in a `.c` file that is not part
of the sources here) is modelled from the specification where noted.
-/

namespace DynamicFlag

/-- Logical state of a flag descriptor: `active` or `inactive`. -/
inductive FlagState where
  | active
  | inactive
deriving DecidableEq

/-- Negation of a flag state, the `!` in `flipped ? !current_state : current_state`. -/
def FlagState.negate : FlagState → FlagState
  | .active => .inactive
  | .inactive => .active

/-- Opcode byte for an active hook site, from `an_hook.h` line 92:
`#define DYNAMIC_FLAG_VALUE_ACTIVE 0xe9 /* jmp rel 32 */`.  The 0xe9 byte
turns the 5-byte slot into `jmp` to the guarded block's label. -/
def DYNAMIC_FLAG_VALUE_ACTIVE : Nat := 0xe9

/-- Opcode byte for an inactive hook site, from `an_hook.h` line 93:
`#define DYNAMIC_FLAG_VALUE_INACTIVE 0xa9 /* testl $, %eax */`.  The 0xa9
byte makes the slot a `testl` that falls through into `if (0)`, skipping
the guarded block. -/
def DYNAMIC_FLAG_VALUE_INACTIVE : Nat := 0xa9

/-- Behavior of the 5-byte hook-site instruction as a function of its first
byte: with 0xe9 the `jmp rel32` lands on the label placed in front of the
guarded block, so the block runs; with the 0xa9 `testl` encoding execution
falls through, the statement-expression yields 0 and `if (0)` skips the
labelled block (`an_hook.h` lines 95-120). -/
def opcodeRunsBlock (opcode : Nat) : Bool :=
  opcode == DYNAMIC_FLAG_VALUE_ACTIVE

/-- Effective flag state encoded by an opcode byte: 0xe9 is the active
encoding, anything else (0xa9 in practice) the inactive one. -/
def effectiveOfOpcode (opcode : Nat) : FlagState :=
  if opcode == DYNAMIC_FLAG_VALUE_ACTIVE then .active else .inactive

/-- Logical `current_state` corresponding to an installed opcode byte for a
descriptor with the given `flipped` bit: the inverse of
`effective = flipped ? !current_state : current_state`. -/
def stateOfOpcode (opcode : Nat) (flipped : Bool) : FlagState :=
  if flipped then (effectiveOfOpcode opcode).negate else effectiveOfOpcode opcode

/-- One flag descriptor: the metadata record emitted by `AN_HOOK_IMPL_`
into section `dynamic_flag_list` (`an_hook.h` lines 105-113) together with
the mutable runtime state kept for it by the library.  `kind` records
which `dynamic_flag_KIND_list` section the record is referenced from;
`hook_name` is the `.asciz` identity string the record points to;
`compiled_opcode` is the opcode byte assembled into the instruction
stream at build time; `initial_opcode` and `flipped` are the INITIAL and
FLIPPED metadata bytes.  `current` and `hookable` are the runtime
current state and the hooking-enabled bit. -/
structure Descriptor where
  kind : String
  hook_name : String
  compiled_opcode : Nat
  initial_opcode : Nat
  flipped : Bool
  current : FlagState
  hookable : Bool
deriving DecidableEq

/-- Registration effect of one `AN_HOOK_IMPL_(OPCODE, INITIAL, FLIPPED,
KIND, NAME, FILE, LINE, ...)` expansion: the identity string is rendered
as `KIND ":" NAME "@" FILE ":" LINE` (`an_hook.h` line 102), the opcode
byte OPCODE is compiled into the site, and the INITIAL and FLIPPED bytes
are stored in the metadata record.  Before `dynamic_flag_init_lib` runs,
the live byte at the site is the compiled OPCODE, so the initial
`current` state is the one that opcode encodes; descriptors start out
hookable. -/
def registerHook (OPCODE INITIAL : Nat) (FLIPPED : Bool)
    (KIND NAME FILE : String) (LINE : Nat) : Descriptor :=
  { kind := KIND
    hook_name := KIND ++ ":" ++ NAME ++ "@" ++ FILE ++ ":" ++ toString LINE
    compiled_opcode := OPCODE
    initial_opcode := INITIAL
    flipped := FLIPPED
    current := stateOfOpcode OPCODE FLIPPED
    hookable := true }

/-- Hook defaulting to inactive, compiled active in case the machinery
cannot reach it: `AN_HOOK(KIND, NAME)` passes OPCODE =
`DYNAMIC_FLAG_VALUE_ACTIVE`, INITIAL = `DYNAMIC_FLAG_VALUE_INACTIVE`,
FLIPPED = 0 (`an_hook.h` lines 163-164). -/
def AN_HOOK (KIND NAME FILE : String) (LINE : Nat) : Descriptor :=
  registerHook DYNAMIC_FLAG_VALUE_ACTIVE DYNAMIC_FLAG_VALUE_INACTIVE false KIND NAME FILE LINE

/-- Same as `AN_HOOK` but defaulting to active (`an_hook.h` lines 169-170). -/
def AN_HOOK_ON (KIND NAME FILE : String) (LINE : Nat) : Descriptor :=
  registerHook DYNAMIC_FLAG_VALUE_ACTIVE DYNAMIC_FLAG_VALUE_ACTIVE false KIND NAME FILE LINE

/-- Hook defaulting to inactive even if unreachable by the machinery:
both OPCODE and INITIAL are `DYNAMIC_FLAG_VALUE_INACTIVE`
(`an_hook.h` lines 175-176). -/
def AN_HOOK_UNSAFE (KIND NAME FILE : String) (LINE : Nat) : Descriptor :=
  registerHook DYNAMIC_FLAG_VALUE_INACTIVE DYNAMIC_FLAG_VALUE_INACTIVE false KIND NAME FILE LINE

/-- Flipped hook, skipped to activate the guarded code
(`an_hook.h` lines 184-185). -/
def AN_HOOK_FLIP (KIND NAME FILE : String) (LINE : Nat) : Descriptor :=
  registerHook DYNAMIC_FLAG_VALUE_INACTIVE DYNAMIC_FLAG_VALUE_INACTIVE true KIND NAME FILE LINE

/-- Flipped hook defaulting to executing the guarded code
(`an_hook.h` lines 194-195). -/
def AN_HOOK_FLIP_OFF (KIND NAME FILE : String) (LINE : Nat) : Descriptor :=
  registerHook DYNAMIC_FLAG_VALUE_ACTIVE DYNAMIC_FLAG_VALUE_ACTIVE true KIND NAME FILE LINE

/-- Canonical identity of a descriptor: the `.asciz` string the metadata
record points to. -/
def identity (d : Descriptor) : String :=
  d.hook_name

/-- Effective decision of a descriptor, the formula
`effective = flipped ? !current_state : current_state`. -/
def effectiveState (d : Descriptor) : FlagState :=
  if d.flipped then d.current.negate else d.current

/-- Opcode byte the patch engine installs for a desired effective state. -/
def opcodeForState (s : FlagState) : Nat :=
  if s = .active then DYNAMIC_FLAG_VALUE_ACTIVE else DYNAMIC_FLAG_VALUE_INACTIVE

/-- Live opcode byte at a descriptor's hook site given its runtime state. -/
def liveOpcode (d : Descriptor) : Nat :=
  opcodeForState (effectiveState d)

/-- Whether an execution reaching the hook site runs the guarded block:
the site's live instruction byte is 0xe9 exactly when the effective state
is active, and the 0xe9 `jmp` lands on the guarded block's label. -/
def blockRuns (d : Descriptor) : Bool :=
  opcodeRunsBlock (liveOpcode d)

/-- Modelled from the spec: abstract syntax of the POSIX extended regular
expressions the selection entry points compile with `regcomp`; the
compiling and matching code lives in `dynamic_flag.c`, which is not among
the sources here.  `empty` denotes the empty language (it is produced
only by the derivative operation, never by the compiler). -/
inductive Regex where
  | empty
  | emptyStr
  | anyChar
  | char (c : Char)
  | alt (a b : Regex)
  | cat (a b : Regex)
  | star (a : Regex)
deriving DecidableEq

/-- Whether a regex accepts the empty string. -/
def nullable : Regex → Bool
  | .empty => false
  | .emptyStr => true
  | .anyChar => false
  | .char _ => false
  | .alt a b => nullable a || nullable b
  | .cat a b => nullable a && nullable b
  | .star _ => true

/-- Brzozowski derivative of a regex by one character. -/
def deriv : Regex → Char → Regex
  | .empty, _ => .empty
  | .emptyStr, _ => .empty
  | .anyChar, _ => .emptyStr
  | .char a, c => if a = c then .emptyStr else .empty
  | .alt a b, c => .alt (deriv a c) (deriv b c)
  | .cat a b, c =>
      if nullable a then .alt (.cat (deriv a c) b) (deriv b c)
      else .cat (deriv a c) b
  | .star a, c => .cat (deriv a c) (.star a)

/-- Whether a regex matches a whole character list. -/
def rmatch : Regex → List Char → Bool
  | r, [] => nullable r
  | r, c :: cs => rmatch (deriv r c) cs

/-- Whether a regex matches some initial segment of a character list. -/
def matchStart : Regex → List Char → Bool
  | r, [] => nullable r
  | r, c :: cs => nullable r || matchStart (deriv r c) cs

/-- Modelled from the spec: unanchored `regexec` search, true when the
regex is found somewhere in the list, that is, matches some contiguous
segment. -/
def regexSearch : Regex → List Char → Bool
  | r, [] => nullable r
  | r, c :: cs => matchStart r (c :: cs) || regexSearch r cs

/-- Appending `*`, `+` and `?` repetition operators to a parsed atom. -/
def parseStars : Regex → List Char → Regex × List Char
  | r, [] => (r, [])
  | r, c :: cs =>
      if c = '*' then parseStars (.star r) cs
      else if c = '+' then parseStars (.cat r (.star r)) cs
      else if c = '?' then parseStars (.alt r .emptyStr) cs
      else (r, c :: cs)

mutual

/-- Modelled from the spec: `regcomp` parsing of an alternation
(`branch ('|' branch)*`) for a subset of POSIX extended regular
expressions.  The fuel argument only bounds recursion depth. -/
def parseAlt : Nat → List Char → Option (Regex × List Char)
  | 0, _ => none
  | fuel + 1, cs =>
      match parseCat fuel cs with
      | none => none
      | some (r, rest) =>
          match rest with
          | '|' :: rest1 =>
              match parseAlt fuel rest1 with
              | none => none
              | some (r2, rest2) => some (.alt r r2, rest2)
          | _ => some (r, rest)

/-- Modelled from the spec: parsing one branch, a possibly empty
concatenation of repeated atoms, stopping at `|`, `)` or the end. -/
def parseCat : Nat → List Char → Option (Regex × List Char)
  | 0, _ => none
  | fuel + 1, cs =>
      match cs with
      | [] => some (.emptyStr, [])
      | c :: _ =>
          if c = '|' || c = ')' then some (.emptyStr, cs)
          else
            match parseRep fuel cs with
            | none => none
            | some (r, rest) =>
                match parseCat fuel rest with
                | none => none
                | some (r2, rest2) => some (.cat r r2, rest2)

/-- Modelled from the spec: parsing one atom with its repetition
operators. -/
def parseRep : Nat → List Char → Option (Regex × List Char)
  | 0, _ => none
  | fuel + 1, cs =>
      match parseAtom fuel cs with
      | none => none
      | some (r, rest) => some (parseStars r rest)

/-- Modelled from the spec: parsing one atom: a parenthesised group, `.`,
a backslash escape, or a literal character; a repetition operator with no
preceding atom, an empty group marker or a dangling escape is a
compilation error. -/
def parseAtom : Nat → List Char → Option (Regex × List Char)
  | 0, _ => none
  | fuel + 1, cs =>
      match cs with
      | [] => none
      | c :: rest =>
          if c = '(' then
            match parseAlt fuel rest with
            | none => none
            | some (r, rest1) =>
                match rest1 with
                | ')' :: rest2 => some (r, rest2)
                | _ => none
          else if c = ')' || c = '|' || c = '*' || c = '+' || c = '?' then none
          else if c = '.' then some (.anyChar, rest)
          else if c = '\\' then
            match rest with
            | [] => none
            | d :: rest1 => some (.char d, rest1)
          else some (.char c, rest)

end

/-- Modelled from the spec: `regcomp` applied to a pattern string; `none`
is a compilation failure (the `InvalidPattern` condition).  The pattern
must be consumed entirely; in particular an unmatched `)` is an error. -/
def compile (p : String) : Option Regex :=
  match parseAlt (4 * (p.length + 1)) p.data with
  | some (r, []) => some r
  | _ => none

/-- Modelled from the spec: whether a descriptor is selected by a compiled
pattern.  A NULL pattern (`none`) selects every descriptor; otherwise the
regex is searched for, unanchored, in the canonical identity string
`kind:name@file:line` — the string the metadata record points to — not in
the bare name. -/
def matchesPat (p : Option Regex) (d : Descriptor) : Bool :=
  match p with
  | none => true
  | some r => regexSearch r (identity d).data

/-- The registry: the flat `dynamic_flag_list` section, one metadata
record per hook site, in link order. -/
abbrev Registry := List Descriptor

/-- Modelled from the spec: the Pattern Selector, producing the subset of
descriptors whose canonical identity string the pattern matches. -/
def selected (p : Option Regex) (reg : Registry) : Registry :=
  reg.filter (matchesPat p)

/-- Modelled from the spec: the patch engine's per-descriptor activation
or deactivation step.  Only hookable descriptors respond; an unhooked
descriptor is pinned at its present behavior. -/
def stepSet (s : FlagState) (d : Descriptor) : Descriptor :=
  if d.hookable then { d with current := s } else d

/-- Modelled from the spec: per-descriptor `unhook` step, disabling
hooking without touching the current state. -/
def stepUnhookSet (d : Descriptor) : Descriptor :=
  { d with hookable := false }

/-- Modelled from the spec: per-descriptor `rehook` step, re-enabling
hooking without touching the current state. -/
def stepRehookSet (d : Descriptor) : Descriptor :=
  { d with hookable := true }

/-- Modelled from the spec: applying a per-descriptor change to exactly
the descriptors selected by the pattern, each independently. -/
def stepGuard (f : Descriptor → Descriptor) (p : Option Regex) (d : Descriptor) : Descriptor :=
  if matchesPat p d then f d else d

/-- Modelled from the spec: one bulk patch-engine operation over the flat
registry.  A NULL pattern skips compilation and matches everything; a
pattern that fails to compile returns a negative value and mutates
nothing; otherwise every matched descriptor is updated and 0 is
returned. -/
def runOp (f : Descriptor → Descriptor) (pat : Option String) (reg : Registry) :
    Int × Registry :=
  match pat with
  | none => (0, reg.map (stepGuard f none))
  | some p =>
      match compile p with
      | none => (-1, reg)
      | some r => (0, reg.map (stepGuard f (some r)))

/-- Modelled from the spec: `dynamic_flag_activate(regex)`, setting every
matched hookable descriptor active, over all kinds. -/
def dynamic_flag_activate (pat : Option String) (reg : Registry) : Int × Registry :=
  runOp (stepSet .active) pat reg

/-- Modelled from the spec: `dynamic_flag_deactivate(regex)`. -/
def dynamic_flag_deactivate (pat : Option String) (reg : Registry) : Int × Registry :=
  runOp (stepSet .inactive) pat reg

/-- Modelled from the spec: `dynamic_flag_unhook(regex)`; an unhooked
hook no longer responds to activation requests. -/
def dynamic_flag_unhook (pat : Option String) (reg : Registry) : Int × Registry :=
  runOp stepUnhookSet pat reg

/-- Modelled from the spec: `dynamic_flag_rehook(regex)`. -/
def dynamic_flag_rehook (pat : Option String) (reg : Registry) : Int × Registry :=
  runOp stepRehookSet pat reg

/-- Modelled from the spec: one kind-scoped bulk operation.  The
`dynamic_flag_activate_kind` macro walks only the
`__start_dynamic_flag_KIND_list .. __stop_dynamic_flag_KIND_list`
section, so only descriptors registered under that kind are visited;
pattern handling is as in the global operations. -/
def runOpKind (K : String) (f : Descriptor → Descriptor) (pat : Option String)
    (reg : Registry) : Int × Registry :=
  match pat with
  | none => (0, reg.map (fun d => if d.kind == K then stepGuard f none d else d))
  | some p =>
      match compile p with
      | none => (-1, reg)
      | some r => (0, reg.map (fun d => if d.kind == K then stepGuard f (some r) d else d))

/-- Modelled from the spec: `dynamic_flag_activate_kind(KIND, PATTERN)`
(`an_hook.h` lines 211-222). -/
def dynamic_flag_activate_kind (K : String) (pat : Option String) (reg : Registry) :
    Int × Registry :=
  runOpKind K (stepSet .active) pat reg

/-- Modelled from the spec: `dynamic_flag_deactivate_kind(KIND, PATTERN)`
(`an_hook.h` lines 224-235). -/
def dynamic_flag_deactivate_kind (K : String) (pat : Option String) (reg : Registry) :
    Int × Registry :=
  runOpKind K (stepSet .inactive) pat reg

/-- Modelled from the spec: the kind-scoped `unhook` equivalent named in
the external-interface section of the spec. -/
def dynamic_flag_unhook_kind (K : String) (pat : Option String) (reg : Registry) :
    Int × Registry :=
  runOpKind K stepUnhookSet pat reg

/-- Modelled from the spec: the kind-scoped `rehook` equivalent named in
the external-interface section of the spec. -/
def dynamic_flag_rehook_kind (K : String) (pat : Option String) (reg : Registry) :
    Int × Registry :=
  runOpKind K stepRehookSet pat reg

/-- Modelled from the spec: per-descriptor effect of
`dynamic_flag_init_lib`, installing the recorded INITIAL opcode byte at
the site, which sets the current state to the recorded initial state. -/
def initStep (d : Descriptor) : Descriptor :=
  { d with current := stateOfOpcode d.initial_opcode d.flipped }

/-- Modelled from the spec: `dynamic_flag_init_lib`, applying every
descriptor's recorded initial state to its site. -/
def dynamic_flag_init_lib (reg : Registry) : Registry :=
  reg.map initStep

/-- Recorded initial logical state of a descriptor: the state its INITIAL
metadata byte encodes under its `flipped` bit. -/
def initialState (d : Descriptor) : FlagState :=
  stateOfOpcode d.initial_opcode d.flipped

/-- Registry of the three-descriptor scenario from the specification's
testable-properties section. -/
def demoRegistry : Registry :=
  [AN_HOOK "debug" "foo" "a.c" 10,
   AN_HOOK "debug" "bar" "a.c" 20,
   AN_HOOK "feature" "foo" "b.c" 5]

theorem matchStart_iff (r : Regex) (s : List Char) :
    matchStart r s = true ↔ ∃ p q, s = p ++ q ∧ rmatch r p = true := by
  induction s generalizing r with
  | nil =>
      simp only [matchStart]
      constructor
      · intro h
        exact ⟨[], [], rfl, h⟩
      · rintro ⟨p, q, hpq, hm⟩
        rcases List.append_eq_nil.mp hpq.symm with ⟨hp, -⟩
        subst hp
        exact hm
  | cons c cs ih =>
      simp only [matchStart, Bool.or_eq_true]
      constructor
      · rintro (h | h)
        · exact ⟨[], c :: cs, rfl, h⟩
        · rcases (ih (deriv r c)).mp h with ⟨p, q, hpq, hm⟩
          exact ⟨c :: p, q, by rw [List.cons_append, hpq], hm⟩
      · rintro ⟨p, q, hpq, hm⟩
        cases p with
        | nil =>
            left
            exact hm
        | cons c2 p2 =>
            right
            rw [List.cons_append] at hpq
            injection hpq with h1 h2
            subst h1
            exact (ih (deriv r c)).mpr ⟨p2, q, h2, hm⟩

theorem regexSearch_iff (r : Regex) (s : List Char) :
    regexSearch r s = true ↔ ∃ p q, s = p ++ q ∧ matchStart r q = true := by
  induction s with
  | nil =>
      simp only [regexSearch]
      constructor
      · intro h
        exact ⟨[], [], rfl, h⟩
      · rintro ⟨p, q, hpq, hm⟩
        rcases List.append_eq_nil.mp hpq.symm with ⟨hp, hq⟩
        subst hp
        subst hq
        exact hm
  | cons c cs ih =>
      simp only [regexSearch, Bool.or_eq_true]
      constructor
      · rintro (h | h)
        · exact ⟨[], c :: cs, rfl, h⟩
        · rcases ih.mp h with ⟨p, q, hpq, hm⟩
          exact ⟨c :: p, q, by rw [List.cons_append, hpq], hm⟩
      · rintro ⟨p, q, hpq, hm⟩
        cases p with
        | nil =>
            left
            rw [List.nil_append] at hpq
            rw [hpq]
            exact hm
        | cons c2 p2 =>
            right
            rw [List.cons_append] at hpq
            injection hpq with h1 h2
            exact ih.mpr ⟨p2, q, h2, hm⟩

/-- Unanchored search succeeds exactly when the regex fully matches some
contiguous segment of the subject. -/
theorem regexSearch_decomp (r : Regex) (s : List Char) :
    regexSearch r s = true ↔
      ∃ pre mid post, s = pre ++ (mid ++ post) ∧ rmatch r mid = true := by
  rw [regexSearch_iff]
  constructor
  · rintro ⟨p, q, hpq, hm⟩
    rcases (matchStart_iff r q).mp hm with ⟨m, q2, hq, hm2⟩
    exact ⟨p, m, q2, by rw [hpq, hq], hm2⟩
  · rintro ⟨pre, mid, post, hs, hm⟩
    exact ⟨pre, mid ++ post, hs, (matchStart_iff r (mid ++ post)).mpr ⟨mid, post, rfl, hm⟩⟩

theorem matchStart_emptyStr (s : List Char) : matchStart .emptyStr s = true := by
  cases s with
  | nil => rfl
  | cons c cs => simp [matchStart, nullable]

theorem regexSearch_emptyStr (s : List Char) : regexSearch .emptyStr s = true := by
  cases s with
  | nil => rfl
  | cons c cs => simp [regexSearch, matchStart_emptyStr]

theorem stepSet_hook_name (s : FlagState) (d : Descriptor) :
    (stepSet s d).hook_name = d.hook_name := by
  unfold stepSet
  split <;> rfl

theorem stepSet_kind (s : FlagState) (d : Descriptor) :
    (stepSet s d).kind = d.kind := by
  unfold stepSet
  split <;> rfl

theorem stepSet_hookable (s : FlagState) (d : Descriptor) :
    (stepSet s d).hookable = d.hookable := by
  unfold stepSet
  split <;> rfl

theorem matchesPat_stepSet (p : Option Regex) (s : FlagState) (d : Descriptor) :
    matchesPat p (stepSet s d) = matchesPat p d := by
  cases p with
  | none => rfl
  | some r => simp [matchesPat, identity, stepSet_hook_name]

theorem matchesPat_stepUnhookSet (p : Option Regex) (d : Descriptor) :
    matchesPat p (stepUnhookSet d) = matchesPat p d := by
  cases p with
  | none => rfl
  | some r => rfl

theorem matchesPat_stepRehookSet (p : Option Regex) (d : Descriptor) :
    matchesPat p (stepRehookSet d) = matchesPat p d := by
  cases p with
  | none => rfl
  | some r => rfl

theorem stepSet_idem (s : FlagState) (d : Descriptor) :
    stepSet s (stepSet s d) = stepSet s d := by
  unfold stepSet
  by_cases h : d.hookable <;> simp [h]

theorem stepGuard_stepSet_idem (s : FlagState) (p : Option Regex) (d : Descriptor) :
    stepGuard (stepSet s) p (stepGuard (stepSet s) p d) = stepGuard (stepSet s) p d := by
  unfold stepGuard
  by_cases h : matchesPat p d = true
  · simp [h, matchesPat_stepSet, stepSet_idem]
  · simp [h]

/-- C1, claim as stated refuted: the claim reads the active state as "do
not run the guarded block" and asserts that a non-flipped hook's block
runs exactly when `current_state` is inactive; but for the non-flipped
descriptor `debug:foo@a.c:10` activated to `current = active`, the live
opcode is 0xe9, a `jmp` into the guarded block, so the block runs while
`current_state` is not inactive. -/
theorem hook_active_skips_block_refuted :
    ¬ (blockRuns (stepSet .active (initStep (AN_HOOK "debug" "foo" "a.c" 10))) = true ↔
       (stepSet .active (initStep (AN_HOOK "debug" "foo" "a.c" 10))).current = .inactive) := by
  decide

/-- C1 (amended): for every hook site and descriptor state exactly one of
two behaviors occurs, determined by
`effective = flipped ? !current_state : current_state`, where effective
active means the guarded block IS run (0xe9 jumps into the block): a
non-flipped hook's block runs exactly when `current_state` is active, and
a flipped hook's block runs exactly when `current_state` is inactive. -/
theorem hook_block_runs_iff_effective_active (d : Descriptor) :
    (blockRuns d = true ↔ effectiveState d = .active) ∧
    (d.flipped = false → (blockRuns d = true ↔ d.current = .active)) ∧
    (d.flipped = true → (blockRuns d = true ↔ d.current = .inactive)) := by
  rcases d with ⟨k, n, co, io, fl, cur, hk⟩
  cases fl <;> cases cur <;>
    simp [blockRuns, liveOpcode, opcodeForState, opcodeRunsBlock, effectiveState,
      FlagState.negate, DYNAMIC_FLAG_VALUE_ACTIVE, DYNAMIC_FLAG_VALUE_INACTIVE]

/-- C1 witness: the amended claim evaluated on the non-flipped descriptor
`debug:foo@a.c:10` in its initialized state. -/
theorem hook_block_runs_nonflipped_instance :
    blockRuns (initStep (AN_HOOK "debug" "foo" "a.c" 10)) = true ↔
      (initStep (AN_HOOK "debug" "foo" "a.c" 10)).current = .active :=
  (hook_block_runs_iff_effective_active (initStep (AN_HOOK "debug" "foo" "a.c" 10))).2.1 rfl

/-- C2: a descriptor is in the Pattern Selector's selected set exactly
when it is in the registry and the regex is found somewhere — it fully
matches some contiguous segment — in the descriptor's canonical identity
string `kind:name@file:line`, the `.asciz` string its metadata record
points to, not in the bare name. -/
theorem selector_matches_full_identity (r : Regex) (reg : Registry) (d : Descriptor) :
    d ∈ selected (some r) reg ↔
      d ∈ reg ∧
        ∃ pre mid post,
          (identity d).data = pre ++ (mid ++ post) ∧ rmatch r mid = true := by
  unfold selected
  rw [List.mem_filter]
  constructor
  · rintro ⟨hd, hm⟩
    exact ⟨hd, (regexSearch_decomp r (identity d).data).mp hm⟩
  · rintro ⟨hd, hm⟩
    exact ⟨hd, (regexSearch_decomp r (identity d).data).mpr hm⟩

/-- C7: the identity string compiled into the program for a hook site of
kind K, name N, file F, line L is exactly `K:N@F:L`, and every runtime
operation of the library leaves it unchanged. -/
theorem identity_string_format_stable (OPCODE INITIAL : Nat) (FLIPPED : Bool)
    (K N F : String) (L : Nat) (s : FlagState) (d : Descriptor) (p : Option Regex) :
    identity (registerHook OPCODE INITIAL FLIPPED K N F L) =
      K ++ ":" ++ N ++ "@" ++ F ++ ":" ++ toString L ∧
    identity (AN_HOOK K N F L) = K ++ ":" ++ N ++ "@" ++ F ++ ":" ++ toString L ∧
    identity (stepSet s d) = identity d ∧
    identity (stepUnhookSet d) = identity d ∧
    identity (stepRehookSet d) = identity d ∧
    identity (stepGuard (stepSet s) p d) = identity d ∧
    identity (stepGuard stepUnhookSet p d) = identity d ∧
    identity (stepGuard stepRehookSet p d) = identity d ∧
    identity (initStep d) = identity d := by
  refine ⟨rfl, rfl, ?_, rfl, rfl, ?_, ?_, ?_, rfl⟩
  · simp [identity, stepSet_hook_name]
  · unfold stepGuard
    split
    · simp [identity, stepSet_hook_name]
    · rfl
  · unfold stepGuard
    split <;> rfl
  · unfold stepGuard
    split <;> rfl

/-- C10: an `AN_HOOK` site is compiled with the 0xe9 active opcode (a jmp
into the guarded block) even though its recorded INITIAL byte encodes the
inactive state, so before `dynamic_flag_init_lib` installs the recorded
initial states the site executes its guarded block (and stops doing so
after); an `AN_HOOK_UNSAFE` site is compiled with the inactive opcode and
does not execute its block. -/
theorem an_hook_compiled_opcode_active (K N F : String) (L : Nat) :
    (AN_HOOK K N F L).compiled_opcode = DYNAMIC_FLAG_VALUE_ACTIVE ∧
    DYNAMIC_FLAG_VALUE_ACTIVE = 0xe9 ∧
    initialState (AN_HOOK K N F L) = .inactive ∧
    blockRuns (AN_HOOK K N F L) = true ∧
    blockRuns (initStep (AN_HOOK K N F L)) = false ∧
    (AN_HOOK_UNSAFE K N F L).compiled_opcode = DYNAMIC_FLAG_VALUE_INACTIVE ∧
    blockRuns (AN_HOOK_UNSAFE K N F L) = false :=
  ⟨rfl, rfl, rfl, rfl, rfl, rfl, rfl⟩

theorem map_stepGuard_no_match (f : Descriptor → Descriptor) (r : Regex) (reg : Registry)
    (h : ∀ d ∈ reg, matchesPat (some r) d = false) :
    reg.map (stepGuard f (some r)) = reg := by
  induction reg with
  | nil => rfl
  | cons d rest ih =>
      have hd := h d (List.mem_cons_self d rest)
      simp only [List.map_cons, stepGuard, hd]
      rw [ih fun e he => h e (List.mem_cons_of_mem d he)]
      simp

/-- C3: a descriptor matched by `unhook` keeps its current state, stops
responding to activate and deactivate (which still return success when
their pattern compiles, but leave the descriptor — state and effective
behavior — untouched), and a matching `rehook` restores responsiveness
without itself changing the current state, after which a matching
activate changes it again. -/
theorem unhook_freezes_state (d : Descriptor) (r : Regex) (p : String) (reg : Registry)
    (hm : matchesPat (some r) d = true) (hc : compile p ≠ none) :
    (stepGuard stepUnhookSet (some r) d).current = d.current ∧
    (stepGuard stepUnhookSet (some r) d).hookable = false ∧
    (dynamic_flag_activate (some p) reg).1 = 0 ∧
    (dynamic_flag_deactivate (some p) reg).1 = 0 ∧
    (∀ q : Option Regex,
       stepGuard (stepSet .active) q (stepGuard stepUnhookSet (some r) d) =
         stepGuard stepUnhookSet (some r) d ∧
       stepGuard (stepSet .inactive) q (stepGuard stepUnhookSet (some r) d) =
         stepGuard stepUnhookSet (some r) d) ∧
    (stepGuard stepRehookSet (some r) (stepGuard stepUnhookSet (some r) d)).current =
      d.current ∧
    (stepGuard stepRehookSet (some r) (stepGuard stepUnhookSet (some r) d)).hookable =
      true ∧
    (stepGuard (stepSet .active) (some r)
        (stepGuard stepRehookSet (some r) (stepGuard stepUnhookSet (some r) d))).current =
      .active := by
  have hd1 : stepGuard stepUnhookSet (some r) d = stepUnhookSet d := by
    simp [stepGuard, hm]
  have hstuck : ∀ (s : FlagState) (q : Option Regex),
      stepGuard (stepSet s) q (stepUnhookSet d) = stepUnhookSet d := by
    intro s q
    unfold stepGuard
    split
    · unfold stepSet
      rw [if_neg]
      simp [stepUnhookSet]
    · rfl
  have hmm : matchesPat (some r) (stepUnhookSet d) = true := by
    rw [matchesPat_stepUnhookSet]
    exact hm
  have hd2 : stepGuard stepRehookSet (some r) (stepUnhookSet d) =
      stepRehookSet (stepUnhookSet d) := by
    simp [stepGuard, hmm]
  have hmm2 : matchesPat (some r) (stepRehookSet (stepUnhookSet d)) = true := by
    rw [matchesPat_stepRehookSet, matchesPat_stepUnhookSet]
    exact hm
  rcases Option.ne_none_iff_exists.mp hc with ⟨rc, hrc⟩
  refine ⟨?_, ?_, ?_, ?_, ?_, ?_, ?_, ?_⟩
  · rw [hd1]; rfl
  · rw [hd1]; rfl
  · simp [dynamic_flag_activate, runOp, hrc.symm]
  · simp [dynamic_flag_deactivate, runOp, hrc.symm]
  · intro q
    rw [hd1]
    exact ⟨hstuck .active q, hstuck .inactive q⟩
  · rw [hd1, hd2]; rfl
  · rw [hd1, hd2]; rfl
  · rw [hd1, hd2]
    unfold stepGuard
    rw [if_pos hmm2]
    rfl

/-- C3 witness: unhooking `debug:foo@a.c:10` with a matching pattern
leaves its current state unchanged. -/
theorem unhook_freezes_state_instance :
    (stepGuard stepUnhookSet (some (Regex.char 'o')) (AN_HOOK "debug" "foo" "a.c" 10)).current =
      (AN_HOOK "debug" "foo" "a.c" 10).current :=
  (unhook_freezes_state (AN_HOOK "debug" "foo" "a.c" 10) (Regex.char 'o') "foo" demoRegistry
    (by decide) (by decide)).1

/-- C4: each of the four entry points fails, returning a negative value,
exactly when the supplied expression does not compile; on failure no
descriptor changes, and a pattern that compiles but matches no descriptor
returns 0 and changes nothing. -/
theorem invalid_pattern_error_handling (p : String) (reg : Registry) :
    ((dynamic_flag_activate (some p) reg).1 < 0 ↔ compile p = none) ∧
    ((dynamic_flag_deactivate (some p) reg).1 < 0 ↔ compile p = none) ∧
    ((dynamic_flag_unhook (some p) reg).1 < 0 ↔ compile p = none) ∧
    ((dynamic_flag_rehook (some p) reg).1 < 0 ↔ compile p = none) ∧
    (compile p = none →
       dynamic_flag_activate (some p) reg = (-1, reg) ∧
       dynamic_flag_deactivate (some p) reg = (-1, reg) ∧
       dynamic_flag_unhook (some p) reg = (-1, reg) ∧
       dynamic_flag_rehook (some p) reg = (-1, reg)) ∧
    (∀ r, compile p = some r → (∀ d ∈ reg, matchesPat (some r) d = false) →
       dynamic_flag_activate (some p) reg = (0, reg) ∧
       dynamic_flag_deactivate (some p) reg = (0, reg) ∧
       dynamic_flag_unhook (some p) reg = (0, reg) ∧
       dynamic_flag_rehook (some p) reg = (0, reg)) := by
  cases hc : compile p with
  | none =>
      have hall : dynamic_flag_activate (some p) reg = (-1, reg) ∧
          dynamic_flag_deactivate (some p) reg = (-1, reg) ∧
          dynamic_flag_unhook (some p) reg = (-1, reg) ∧
          dynamic_flag_rehook (some p) reg = (-1, reg) := by
        refine ⟨?_, ?_, ?_, ?_⟩ <;>
          simp [dynamic_flag_activate, dynamic_flag_deactivate, dynamic_flag_unhook,
            dynamic_flag_rehook, runOp, hc]
      refine ⟨?_, ?_, ?_, ?_, fun _ => hall, fun r hr => Option.noConfusion hr⟩
      · rw [hall.1]; norm_num
      · rw [hall.2.1]; norm_num
      · rw [hall.2.2.1]; norm_num
      · rw [hall.2.2.2]; norm_num
  | some r0 =>
      refine ⟨?_, ?_, ?_, ?_, fun hn => Option.noConfusion hn, fun r hr hnone => ?_⟩
      · simp [dynamic_flag_activate, runOp, hc]
      · simp [dynamic_flag_deactivate, runOp, hc]
      · simp [dynamic_flag_unhook, runOp, hc]
      · simp [dynamic_flag_rehook, runOp, hc]
      · injection hr with hr
        subst hr
        refine ⟨?_, ?_, ?_, ?_⟩ <;>
          simp [dynamic_flag_activate, dynamic_flag_deactivate, dynamic_flag_unhook,
            dynamic_flag_rehook, runOp, hc, map_stepGuard_no_match _ _ _ hnone]

/-- C4 witness: the unbalanced pattern `(` does not compile, so activate
on the demo registry fails with -1 and changes nothing. -/
theorem invalid_pattern_error_handling_instance :
    dynamic_flag_activate (some "(") demoRegistry = (-1, demoRegistry) :=
  ((invalid_pattern_error_handling "(" demoRegistry).2.2.2.2.1 (by decide)).1

theorem runOpKind_other_kind (K : String) (f : Descriptor → Descriptor) (pat : Option String)
    (reg : Registry) (i : Nat) (d : Descriptor) (h : reg[i]? = some d) (hk : d.kind ≠ K) :
    ((runOpKind K f pat reg).2)[i]? = some d := by
  have hkd : (d.kind == K) = false := beq_eq_false_iff_ne.mpr hk
  cases pat with
  | none =>
      simp [runOpKind, List.getElem?_map, h, hkd]
      exact fun hkk => absurd hkk hk
  | some p =>
      cases hc : compile p with
      | none => simp [runOpKind, hc, h]
      | some r =>
          simp [runOpKind, hc, List.getElem?_map, h, hkd]
          exact fun hkk => absurd hkk hk

/-- C5: a kind-scoped operation walks only its kind's section, so a
descriptor whose kind differs is left completely unchanged even when its
identity matches the pattern. -/
theorem kind_scoped_ops_change_only_kind (K : String) (pat : Option String) (reg : Registry)
    (i : Nat) (d : Descriptor) (h : reg[i]? = some d) (hk : d.kind ≠ K) :
    ((dynamic_flag_activate_kind K pat reg).2)[i]? = some d ∧
    ((dynamic_flag_deactivate_kind K pat reg).2)[i]? = some d ∧
    ((dynamic_flag_unhook_kind K pat reg).2)[i]? = some d ∧
    ((dynamic_flag_rehook_kind K pat reg).2)[i]? = some d :=
  ⟨runOpKind_other_kind K _ pat reg i d h hk, runOpKind_other_kind K _ pat reg i d h hk,
   runOpKind_other_kind K _ pat reg i d h hk, runOpKind_other_kind K _ pat reg i d h hk⟩

/-- C5 witness: `activate_kind("debug", "foo")` leaves the descriptor
`feature:foo@b.c:5` unchanged although its name matches the pattern. -/
theorem kind_scoped_ops_instance :
    ((dynamic_flag_activate_kind "debug" (some "foo") demoRegistry).2)[2]? =
      some (AN_HOOK "feature" "foo" "b.c" 5) :=
  (kind_scoped_ops_change_only_kind "debug" (some "foo") demoRegistry 2
    (AN_HOOK "feature" "foo" "b.c" 5) (by decide) (by decide)).1

/-- C6: a NULL or empty pattern matches every descriptor, so a global
activate applies the activation step to all of them and a kind-scoped
activate applies it to every descriptor of that kind. -/
theorem empty_pattern_matches_all (d : Descriptor) (reg : Registry) (K : String) :
    matchesPat none d = true ∧
    compile "" = some Regex.emptyStr ∧
    matchesPat (some Regex.emptyStr) d = true ∧
    (dynamic_flag_activate none reg).2 = reg.map (stepSet .active) ∧
    (dynamic_flag_activate (some "") reg).2 = reg.map (stepSet .active) ∧
    (dynamic_flag_activate_kind K none reg).2 =
      reg.map (fun e => if e.kind == K then stepSet .active e else e) ∧
    (dynamic_flag_activate_kind K (some "") reg).2 =
      reg.map (fun e => if e.kind == K then stepSet .active e else e) := by
  have e1 : stepGuard (stepSet FlagState.active) none = stepSet FlagState.active :=
    funext fun e => by simp [stepGuard, matchesPat]
  have e2 : stepGuard (stepSet FlagState.active) (some Regex.emptyStr) =
      stepSet FlagState.active :=
    funext fun e => by simp [stepGuard, matchesPat, regexSearch_emptyStr]
  refine ⟨rfl, rfl, ?_, ?_, ?_, ?_, ?_⟩
  · simp [matchesPat, regexSearch_emptyStr]
  · simp [dynamic_flag_activate, runOp, e1]
  · simp [dynamic_flag_activate, runOp, show compile "" = some Regex.emptyStr from rfl, e2]
  · simp [dynamic_flag_activate_kind, runOpKind, e1]
  · simp [dynamic_flag_activate_kind, runOpKind,
      show compile "" = some Regex.emptyStr from rfl, e2]

/-- C8: activating the same pattern twice in a row leaves the registry in
the same state, result code included, as activating it once. -/
theorem activate_idempotent (pat : Option String) (reg : Registry) :
    dynamic_flag_activate pat ((dynamic_flag_activate pat reg).2) =
      dynamic_flag_activate pat reg := by
  cases pat with
  | none =>
      have e : stepGuard (stepSet FlagState.active) none ∘
          stepGuard (stepSet FlagState.active) none =
          stepGuard (stepSet FlagState.active) none :=
        funext (stepGuard_stepSet_idem FlagState.active none)
      simp [dynamic_flag_activate, runOp, List.map_map, e]
  | some p =>
      cases hc : compile p with
      | none => simp [dynamic_flag_activate, runOp, hc]
      | some r =>
          have e : stepGuard (stepSet FlagState.active) (some r) ∘
              stepGuard (stepSet FlagState.active) (some r) =
              stepGuard (stepSet FlagState.active) (some r) :=
            funext (stepGuard_stepSet_idem FlagState.active (some r))
          simp [dynamic_flag_activate, runOp, hc, List.map_map, e]

end DynamicFlag
